import Mathlib

/-!
Verification of the DocSmart backend job pipeline against its
natural-language specification.  The JavaScript source is shallowly
embedded: each definition below translates one function (or one case of
the worker dispatch switch) of the repository; machine numbers become
`Nat`/`Int`/`ℚ`, JS `undefined`/`null` become `Option`, and fallible
code returns `Except String`.
-/

namespace DocSmart

/-- JS truthiness restricted to optional strings: `undefined`/`null` and
the empty string are falsy, every other string is truthy. -/
def jsTruthy : Option String → Bool
  | none => false
  | some s => s != ""

/-! ## Compression profiler (src/src/worker.js, compress case)

`executePdfProcessing` destructures
`const { compressionLevel = 'medium', grayscale = false } = options || {}`
and then selects a Ghostscript profile:
`extreme ↦ screen/25/36/36/100`, `medium ↦ ebook/70/120/120/300`,
and the trailing `else` branch (commented `// low` in the source)
`↦ printer/100/300/300/300`. -/

/-- Image-downsampling tweak passed to Ghostscript. -/
structure GsTweak where
  jpegQ : Nat
  colorDpi : Nat
  grayDpi : Nat
  monoDpi : Nat
deriving Repr, DecidableEq

/-- A Ghostscript preset together with its tweak, as built by the
compress case of `executePdfProcessing`. -/
structure GsProfile where
  preset : String
  tweak : GsTweak
deriving Repr, DecidableEq

/-- The profile selection of src/src/worker.js lines 538-544.  `none`
models an absent `compressionLevel` (the destructuring default makes it
`'medium'`). -/
def compressProfile (compressionLevel : Option String) : GsProfile :=
  let level := compressionLevel.getD "medium"
  if level = "extreme" then ⟨"screen", ⟨25, 36, 36, 100⟩⟩
  else if level = "medium" then ⟨"ebook", ⟨70, 120, 120, 300⟩⟩
  else ⟨"printer", ⟨100, 300, 300, 300⟩⟩

/-! ## Access-count gates

Two increment-and-cleanup gates exist in the source: the Supabase edge
function `increment-access-and-cleanup` (the one invoked by the
download-proxied-file route) and the unused library function
`supabaseService.incrementAccessCountAndCleanup`. -/

/-- The JSON shape the caller observes from a gate call: the `deleted`
flag (absent fields read as falsy) and the returned `access_count`
when one is returned. -/
structure GateResult where
  deleted : Bool
  accessCount : Option Nat
deriving Repr, DecidableEq

/-- The gate-visible state of one job: its `access_count` column and
whether the database row and the stored artifact still exist. -/
structure AccessState where
  accessCount : Nat
  recordPresent : Bool
  artifactPresent : Bool
deriving Repr, DecidableEq

/-- Edge function `increment-access-and-cleanup` body once the job row
was fetched: `newAccessCount = access_count + 1`; if `≤ 3` persist it
and answer `{success, access_count}`; otherwise remove the artifact
from storage and the row from the database and answer
`{success, deleted: true}`. -/
def edgeIncrementAccess (st : AccessState) : GateResult × AccessState :=
  let newAccessCount := st.accessCount + 1
  if newAccessCount ≤ 3 then
    (⟨false, some newAccessCount⟩, { st with accessCount := newAccessCount })
  else
    (⟨true, none⟩, { st with recordPresent := false, artifactPresent := false })

/-- `supabaseService.incrementAccessCountAndCleanup` once the job row
was fetched: `newAccessCount = (access_count || 0) + 1`; if `≥ 3` it
calls `deleteProcessingJobAndFile`, ignores that call's result, and
answers `{deleted: true}`; otherwise it persists the new count and
answers `{deleted: false}` with no count field.  The delete call
removes the stored artifact (the gate fetches `file_name` and
`public_url`, which a downloadable job has), but its final
`.delete().in('id', jobId)` — a string handed to `in()` — filters the
id column against the individual characters of the job id and so never
matches the row: the database record survives, with its access count
not incremented on this branch. -/
def svcIncrementAccess (st : AccessState) : GateResult × AccessState :=
  let newAccessCount := st.accessCount + 1
  if newAccessCount ≥ 3 then
    (⟨true, none⟩, { st with artifactPresent := false })
  else
    (⟨false, none⟩, { st with accessCount := newAccessCount })

/-- The sequence of gate results a client sees over `n` successive
proxied downloads through the edge-function gate. -/
def edgeTrace : Nat → AccessState → List GateResult
  | 0, _ => []
  | n + 1, st =>
    let step := edgeIncrementAccess st
    step.1 :: edgeTrace n step.2

/-! ## Job repository updates and the worker's terminal transitions -/

/-- The mutable columns of a `processing_jobs` row that
`updateProcessingJobStatus` touches. -/
structure JobRecord where
  status : String
  progress : Nat
  fileName : Option String
  publicUrl : Option String
  errorMessage : Option String
deriving Repr, DecidableEq

/-- `supabaseService.updateProcessingJobStatus`: a partial update —
`status` is always written, every optional argument left `null`
leaves the stored column untouched. -/
def updateProcessingJobStatus (j : JobRecord) (status : String)
    (progress : Option Nat) (fileName publicUrl errorMessage : Option String) :
    JobRecord :=
  { j with
    status := status
    progress := progress.getD j.progress
    fileName := fileName <|> j.fileName
    publicUrl := publicUrl <|> j.publicUrl
    errorMessage := errorMessage <|> j.errorMessage }

/-- Outcome of one fallible step of `executePdfProcessing` (download,
tool handler, upload); an error carries the thrown message. -/
inductive StepResult (α : Type) where
  | ok (val : α)
  | err (msg : String)
deriving Repr, DecidableEq

/-- What a successful tool handler hands back to the tail of
`executePdfProcessing`: the base name and the extension of the output. -/
structure HandlerOutput where
  baseName : String
  extension : String
deriving Repr, DecidableEq

/-- The environment a single `executePdfProcessing` run interacts with:
the outcome of input download, of the dispatched tool handler, and of
the upload (carrying the public URL on success). -/
structure ExecEnv where
  download : StepResult Unit
  handler : StepResult HandlerOutput
  upload : StepResult String
deriving Repr, DecidableEq

/-- Final output naming from the tail of `executePdfProcessing`. -/
def finalOutputFileName (jobId : String) (h : HandlerOutput) : String :=
  "DocSmart_" ++ h.baseName ++ "_" ++ jobId.take 8 ++ h.extension

/-- `executePdfProcessing` (src/src/worker.js) reduced to its
repository-visible effect on the job record: downloads, then the
`in_progress` progress tick, then handler and upload; the surrounding
try/catch turns any thrown error into the
`updateProcessingJobStatus(jobId, failed, 0, null, null, error.message)`
call, and success ends in
`updateProcessingJobStatus(jobId, succeeded, 100, fileName, publicUrl)`. -/
def executePdfProcessing (jobId : String) (j : JobRecord) (env : ExecEnv) :
    JobRecord :=
  match env.download with
  | .err m => updateProcessingJobStatus j "failed" (some 0) none none (some m)
  | .ok _ =>
    let j1 := updateProcessingJobStatus j "in_progress" (some 10) none none none
    match env.handler with
    | .err m => updateProcessingJobStatus j1 "failed" (some 0) none none (some m)
    | .ok h =>
      match env.upload with
      | .err m =>
        updateProcessingJobStatus j1 "failed" (some 0) none none
          (some ("Failed to upload processed file. Reason: " ++ m))
      | .ok url =>
        updateProcessingJobStatus j1 "succeeded" (some 100)
          (some (finalOutputFileName jobId h)) (some url) none

/-! ## unlockPdf dispatch case (src/src/worker.js) -/

/-- The spawn of `protect_pdf.py` with an action and the password
argument actually passed (`password || ''`). -/
structure SecurityInvocation where
  action : String
  password : String
deriving Repr, DecidableEq

/-- The `unlockPdf` case of the worker dispatch switch: exactly one
file, then `const { password } = options; if (!password) throw ...`,
then `processPdfSecurityWithPython('unlock', file, password)`. -/
def unlockPdfCase (numFiles : Nat) (password : Option String) :
    Except String SecurityInvocation :=
  if numFiles ≠ 1 then
    .error "Unlocking a PDF requires exactly one file."
  else if !jsTruthy password then
    .error "Password is required to unlock the PDF."
  else
    .ok ⟨"unlock", password.getD ""⟩

/-! ## Deletion: deleteProcessingJobAndFile and its DELETE route -/

/-- The columns `deleteProcessingJobAndFile` selects from the row. -/
structure JobRow where
  publicUrl : Option String
  fileName : Option String
deriving Repr, DecidableEq

/-- Database rows (keyed by job id) plus the set of artifact paths
present in the `processed-pdfs` bucket. -/
structure StoreState where
  jobs : List (String × JobRow)
  storage : List String
deriving Repr, DecidableEq

/-- The `{success, error}` shape `deleteProcessingJobAndFile` returns. -/
structure DeleteResult where
  success : Bool
  errMsg : Option String
deriving Repr, DecidableEq

/-- Artifact path `public/{jobId}/{file_name}` in `processed-pdfs`. -/
def artifactPath (jobId fileName : String) : String :=
  "public/" ++ jobId ++ "/" ++ fileName

/-- The filter values postgrest-js builds for `.in('id', jobId)` when
handed a *string* instead of an array: `Array.from(new Set(values))`
iterates the string character-by-character, so the filter holds the
deduplicated characters of the job id as one-character values. -/
def inFilterValues (jobId : String) : List String :=
  (jobId.toList.eraseDups).map (fun c => String.mk [c])

/-- `supabaseService.deleteProcessingJobAndFile`: fetch the row by
`.eq('id', jobId)` (absent ⇒ `{success: false, error: Job not found}`);
if `public_url` and `file_name` are truthy, remove the artifact — a
storage failure (`storageFails` oracle) is only logged and execution
continues.  The final database delete is `.delete().in('id', jobId)`
with a string argument, so the filter is the deduplicated characters of
the job id (`inFilterValues`) and can only ever match one-character
ids.  Against a `uuid` id column (`uuidIds = true`) casting a bare
character fails, the query errors and the function reports failure with
the row untouched; against a `text` column the delete silently matches
no multi-character row and the function reports success, the row again
surviving. -/
def deleteProcessingJobAndFile (st : StoreState) (jobId : String)
    (storageFails uuidIds : Bool) : DeleteResult × StoreState :=
  match st.jobs.lookup jobId with
  | none => (⟨false, some "Job not found"⟩, st)
  | some job =>
    let storage2 :=
      if jsTruthy job.publicUrl && jsTruthy job.fileName && !storageFails then
        st.storage.filter (fun p => p != artifactPath jobId (job.fileName.getD ""))
      else st.storage
    if uuidIds then
      (⟨false, some "invalid input syntax for type uuid"⟩, ⟨st.jobs, storage2⟩)
    else
      let jobs2 := st.jobs.filter (fun kv => decide (kv.1 ∉ inFilterValues jobId))
      (⟨true, none⟩, ⟨jobs2, storage2⟩)

/-- DELETE /api/delete-processed-file (Supabase variant): 400 without a
`jobId`, otherwise 200 when `deleteProcessingJobAndFile` reports
success and 500 when it does not. -/
def deleteRoute (st : StoreState) (jobId : Option String)
    (storageFails uuidIds : Bool) : Nat × StoreState :=
  match jobId with
  | none => (400, st)
  | some jid =>
    let step := deleteProcessingJobAndFile st jid storageFails uuidIds
    if step.1.success then (200, step.2) else (500, step.2)

/-! ## File-size endpoint (Supabase variant of /api/file-size) -/

/-- JS `Math.round` on an exact rational: round half up. -/
def jsMathRound (q : ℚ) : ℤ := ⌊q + 1 / 2⌋

/-- The GET handler's size computation: select `file_size` (bytes;
`null` propagates) and return
`Math.round(fileSizeBytes / (1024 * 1024))`. -/
def fileSizeRouteMb (fileSize : Option Nat) : Option ℤ :=
  fileSize.map (fun b : Nat => jsMathRound ((b : ℚ) / (1024 * 1024)))

/-- The two-decimal megabyte value the spec describes, as
`uploadProcessedFile` computes it for the `file_size_mb` column:
`Number((fileSize / (1024 * 1024)).toFixed(2))`. -/
def fileSizeMbTwoDecimals (b : Nat) : ℚ :=
  (jsMathRound ((b : ℚ) * 100 / (1024 * 1024)) : ℚ) / 100

/-! ## Split case: page-range parsing and packaging (src/src/worker.js)

Strings are handled as character lists; `String.toList` bridges
literals.  JS `Number()` is modelled on the fragment these tokens live
in: the empty string is `0` and a non-empty digit string is its decimal
value; every other token is `NaN`. -/

/-- Split a character list at every occurrence of `c`
(JS `"...".split(sep)` with a one-character separator; the empty
string splits to `[""]`). -/
def splitOnChar (c : Char) : List Char → List (List Char)
  | [] => [[]]
  | x :: xs =>
    let rest := splitOnChar c xs
    if x = c then [] :: rest
    else
      match rest with
      | [] => [[x]]
      | r :: rs => (x :: r) :: rs

/-- JS `Number()` on the integer fragment: `Number('') = 0`, a digit
string is its value, anything else is `NaN` (`none`). -/
def jsNumber (s : List Char) : Option Nat :=
  if s = [] then some 0
  else if s.all Char.isDigit then
    some (s.foldl (fun acc c => 10 * acc + (c.toNat - 48)) 0)
  else none

/-- A 0-based inclusive page range as pushed onto `rangesToSplit`
(`stop` models the source field `end`, a Lean keyword). -/
structure PageRange where
  start : Nat
  stop : Nat
deriving Repr, DecidableEq

/-- One iteration of the `for (const rangeStr of individualRanges)`
loop: a token containing `-` is split and both parts go through
`Number`; a bare token is a single page.  Errors are the thrown
messages. -/
def parseRangeToken (tok : List Char) : Except String PageRange :=
  if '-' ∈ tok then
    match (splitOnChar '-' tok).map jsNumber with
    | [some a, some b] =>
      if a < 1 ∨ b < a then
        .error ("Invalid pages in range \"" ++ tok.asString ++
          "\". Pages must be positive and end page >= start page.")
      else
        .ok ⟨a - 1, b - 1⟩
    | _ =>
      .error ("Invalid range format \"" ++ tok.asString ++
        "\". Please use \"start-end\" (e.g., \"1-7\").")
  else
    match jsNumber tok with
    | some n =>
      if n < 1 then
        .error ("Invalid page number \"" ++ tok.asString ++
          "\". Page numbers must be positive integers.")
      else .ok ⟨n - 1, n - 1⟩
    | none =>
      .error ("Invalid page number \"" ++ tok.asString ++
        "\". Page numbers must be positive integers.")

/-- JS `trim` on a character list. -/
def trimChars (l : List Char) : List Char :=
  ((l.dropWhile Char.isWhitespace).reverse.dropWhile Char.isWhitespace).reverse

/-- `pageRange.split(',').map(s => s.trim()).filter(s => s.length > 0)`. -/
def pageRangeTokens (pageRange : List Char) : List (List Char) :=
  ((splitOnChar ',' pageRange).map trimChars).filter (fun t => !t.isEmpty)

/-- The `for (const rangeStr of individualRanges)` loop: parse each
token in order, aborting at the first thrown error. -/
def parseTokens : List (List Char) → Except String (List PageRange)
  | [] => .ok []
  | t :: ts => do
    let r ← parseRangeToken t
    let rs ← parseTokens ts
    pure (r :: rs)

/-- The range-parsing prefix of the split case: the emptiness guards
and the token loop building `rangesToSplit`. -/
def parsePageRanges (pageRange : List Char) : Except String (List PageRange) :=
  if trimChars pageRange = [] then
    .error "Page range (e.g., \"1-7\" or \"1-3,5,8-10\") is required for splitting."
  else
    let toks := pageRangeTokens pageRange
    if toks = [] then
      .error "Invalid page range format. Please specify at least one page or range."
    else
      parseTokens toks

/-- Name of the ZIP entry appended for the `index`-th split output:
`split_page_{rangesToSplit[index].start + 1}.pdf`. -/
def splitEntryName (r : PageRange) : String :=
  "split_page_" ++ toString (r.start + 1) ++ ".pdf"

/-- The shape of the split result: one bare PDF, or a ZIP with its
entry names in order. -/
inductive SplitPackage where
  | singlePdf
  | zip (entryNames : List String)
deriving Repr, DecidableEq

/-- Packaging tail of the split case.  The library call
`split(pdfBuffer, rangesToSplit)` yields one output document per
requested range, so `splitPdfs.length = rangesToSplit.length`: zero
outputs throw, more than one output builds the ZIP whose entries are
named by `splitEntryName` in range order, exactly one output is the
bare PDF. -/
def splitPackage (ranges : List PageRange) : Except String SplitPackage :=
  if ranges.length = 0 then
    .error "Splitting resulted in no pages. Check page range and input PDF."
  else if ranges.length > 1 then
    .ok (.zip (ranges.map splitEntryName))
  else
    .ok .singlePdf

/-- The whole split case up to the choice of output artifact. -/
def executeSplitCase (pageRange : List Char) : Except String SplitPackage := do
  let ranges ← parsePageRanges pageRange
  splitPackage ranges

/-- `Except` projection used to compare parse outcomes while ignoring
the exact error message. -/
def exceptToOption : Except String α → Option α
  | .ok a => some a
  | .error _ => none

/-! ## Sensitive-value logging (edge function and process-pdf route) -/

/-- The edge function's request dump: for every request header it logs
one line `  {key}: {value}` — including the `authorization` header it
is called with. -/
def edgeHeaderLogLines (headers : List (String × String)) : List String :=
  headers.map (fun kv => "  " ++ kv.1 ++ ": " ++ kv.2)

/-- The options the compress case of
src/src/app/api/process-pdf/route.js destructures. -/
structure CompressCmdOptions where
  resolution : Option String
  compatibilityLevel : Option Nat
  pdfPassword : Option String
  removePasswordAfterCompression : Option Bool
  gsModule : Option String
deriving Repr, DecidableEq

/-- The `npx compress-pdf ...` command string that case builds;
`--pdfPassword "{pdfPassword}"` is appended whenever the option is
truthy. -/
def buildCompressCommand (inputPath outputPath : String)
    (o : CompressCmdOptions) : String :=
  let resolution := o.resolution.getD "ebook"
  let gsModule := o.gsModule.getD "/usr/bin/gs"
  let cmd := "npx compress-pdf --file \"" ++ inputPath ++ "\" --output \"" ++
    outputPath ++ "\""
  let cmd := if resolution != "" then
    cmd ++ " --resolution \"" ++ resolution ++ "\"" else cmd
  let cmd := match o.compatibilityLevel with
    | some cl => cmd ++ " --compatibilityLevel " ++ toString cl
    | none => cmd
  let cmd := if gsModule != "" then
    cmd ++ " --gsModule \"" ++ gsModule ++ "\"" else cmd
  let cmd := if jsTruthy o.pdfPassword then
    cmd ++ " --pdfPassword \"" ++ o.pdfPassword.getD "" ++ "\"" else cmd
  match o.removePasswordAfterCompression with
  | some b => cmd ++ " --removePasswordAfterCompression " ++
      (if b then "true" else "false")
  | none => cmd

/-- The `console.log` line
`Executing compress-pdf command: {compressCommand}` the case emits. -/
def compressCommandLogLine (inputPath outputPath : String)
    (o : CompressCmdOptions) : String :=
  "Executing compress-pdf command: " ++ buildCompressCommand inputPath outputPath o

/-! ## Helper lemmas -/

/-- `jsMathRound` computed from a bracketing of its argument. -/
theorem jsMathRound_eq_of_bounds (q : ℚ) (z : ℤ)
    (h1 : (z : ℚ) ≤ q + 1 / 2) (h2 : q + 1 / 2 < z + 1) : jsMathRound q = z :=
  Int.floor_eq_iff.mpr ⟨h1, h2⟩

/-- Every value the string-valued `.in` filter holds is a single
character, hence a one-character string. -/
theorem mem_inFilterValues_length (s x : String) (h : x ∈ inFilterValues s) :
    x.length = 1 := by
  obtain ⟨c, _, rfl⟩ := List.mem_map.mp h
  rfl

/-- Filtering a row list with a predicate that keeps every entry of a
given key leaves lookups of that key unchanged. -/
theorem lookup_filter_of_key_kept (jid : String) (p : String × JobRow → Bool)
    (hp : ∀ v : JobRow, p (jid, v) = true) :
    ∀ l : List (String × JobRow), (l.filter p).lookup jid = l.lookup jid := by
  intro l
  induction l with
  | nil => rfl
  | cons kv t ih =>
    obtain ⟨k, v⟩ := kv
    by_cases hk : k = jid
    · rw [hk]
      simp [List.filter_cons, hp v, List.lookup, ih]
    · have hbeq : (jid == k) = false := beq_eq_false_iff_ne.mpr (Ne.symm hk)
      cases hpkv : p (k, v) with
      | true => simp [List.filter_cons, hpkv, List.lookup, hbeq, ih]
      | false => simp [List.filter_cons, hpkv, List.lookup, hbeq, ih]

/-- A list without the separator splits to the single piece. -/
theorem splitOnChar_of_not_mem (c : Char) :
    ∀ l : List Char, c ∉ l → splitOnChar c l = [l] := by
  intro l
  induction l with
  | nil => intro _; rfl
  | cons x xs ih =>
    intro h
    rw [List.mem_cons] at h
    push_neg at h
    obtain ⟨h1, h2⟩ := h
    have hx : ¬x = c := fun he => h1 he.symm
    simp only [splitOnChar, if_neg hx, ih h2]

/-- Splitting at the first separator occurrence peels off the
separator-free prefix. -/
theorem splitOnChar_append (c : Char) (r : List Char) :
    ∀ l : List Char, c ∉ l →
      splitOnChar c (l ++ c :: r) = l :: splitOnChar c r := by
  intro l
  induction l with
  | nil => simp [splitOnChar]
  | cons x xs ih =>
    intro h
    rw [List.mem_cons] at h
    push_neg at h
    obtain ⟨h1, h2⟩ := h
    have hx : ¬x = c := fun he => h1 he.symm
    simp only [List.cons_append, splitOnChar, if_neg hx, List.append_eq, ih h2]

/-- A token `la-lb` with separator-free halves splits into the two
halves. -/
theorem splitOnChar_two (la lb : List Char) (ha : '-' ∉ la) (hb : '-' ∉ lb) :
    splitOnChar '-' (la ++ '-' :: lb) = [la, lb] := by
  rw [splitOnChar_append '-' lb la ha, splitOnChar_of_not_mem '-' lb hb]

/-- The separator is present in a composite range token. -/
theorem dash_mem_append (la lb : List Char) : '-' ∈ la ++ '-' :: lb :=
  List.mem_append_right la (List.mem_cons_self '-' lb)

/-- The token loop fails whenever one of its tokens fails to parse. -/
theorem parseTokens_error_of_mem :
    ∀ (l : List (List Char)) (x : List Char), x ∈ l →
      (∃ m, parseRangeToken x = .error m) →
      ∃ m, parseTokens l = .error m := by
  intro l
  induction l with
  | nil =>
    intro x hx _
    exact absurd hx (List.not_mem_nil x)
  | cons a t ih =>
    intro x hx hex
    obtain ⟨m, hm⟩ := hex
    cases hfa : parseRangeToken a with
    | error ma =>
      refine ⟨ma, ?_⟩
      simp only [parseTokens]
      rw [hfa]
      rfl
    | ok b =>
      rcases List.mem_cons.mp hx with rfl | hxt
      · rw [hfa] at hm
        cases hm
      · obtain ⟨mr, hmr⟩ := ih x hxt ⟨m, hm⟩
        refine ⟨mr, ?_⟩
        simp only [parseTokens]
        rw [hfa, hmr]
        rfl

/-! ## C1 — access-count boundary -/

/-- C1 (counterexample): the claim reads "if the post-increment access
count is ≤ 3 the operation returns deleted = false and the artifact
survives".  `incrementAccessCountAndCleanup` on a job with
`access_count = 2` has post-increment count `3 ≤ 3`, yet reports
`deleted = true` and destroys the artifact — while, the broken
`.in('id', jobId)` row delete notwithstanding the report, the database
record survives with its count unincremented. -/
theorem c1_svc_gate_deletes_at_three :
    2 + 1 ≤ 3 ∧
    (svcIncrementAccess ⟨2, true, true⟩).1.deleted = true ∧
    (svcIncrementAccess ⟨2, true, true⟩).2.artifactPresent = false ∧
    (svcIncrementAccess ⟨2, true, true⟩).2.recordPresent = true ∧
    (svcIncrementAccess ⟨2, true, true⟩).2.accessCount = 2 := by
  decide

/-- C1 (amended): the edge-function gate — the one the proxied download
route invokes — behaves exactly as claimed: post-increment count ≤ 3
increments and returns the count with the artifact intact, > 3 deletes
artifact and record (its row delete uses `.eq` and works), so a fresh
job serves exactly 3 downloads and the 4th invocation reports gone.
The library variant `incrementAccessCountAndCleanup` instead reports
deleted already when the post-increment count reaches 3, returns no
count, and removes only the artifact: its row delete filters `id`
against the characters of the job id and never matches, so the record
survives unincremented. -/
theorem c1_access_gate_boundary :
    edgeTrace 4 ⟨0, true, true⟩ =
      [⟨false, some 1⟩, ⟨false, some 2⟩, ⟨false, some 3⟩, ⟨true, none⟩] ∧
    (∀ st : AccessState, st.accessCount + 1 ≤ 3 →
      edgeIncrementAccess st =
        (⟨false, some (st.accessCount + 1)⟩,
         { st with accessCount := st.accessCount + 1 })) ∧
    (∀ st : AccessState, 3 < st.accessCount + 1 →
      edgeIncrementAccess st =
        (⟨true, none⟩, { st with recordPresent := false, artifactPresent := false })) ∧
    (∀ st : AccessState, 3 ≤ st.accessCount + 1 →
      svcIncrementAccess st =
        (⟨true, none⟩, { st with artifactPresent := false })) ∧
    (∀ st : AccessState, st.accessCount + 1 < 3 →
      svcIncrementAccess st =
        (⟨false, none⟩, { st with accessCount := st.accessCount + 1 })) := by
  refine ⟨by decide, ?_, ?_, ?_, ?_⟩
  · intro st h
    rw [edgeIncrementAccess, if_pos h]
  · intro st h
    rw [edgeIncrementAccess, if_neg (by omega)]
  · intro st h
    rw [svcIncrementAccess, if_pos h]
  · intro st h
    rw [svcIncrementAccess, if_neg (by omega)]

/-- C1 witness: the amended theorem applied at concrete states. -/
theorem c1_access_gate_boundary_witness :
    edgeIncrementAccess ⟨1, true, true⟩ = (⟨false, some 2⟩, ⟨2, true, true⟩) ∧
    edgeIncrementAccess ⟨3, true, true⟩ = (⟨true, none⟩, ⟨3, false, false⟩) ∧
    svcIncrementAccess ⟨2, true, true⟩ = (⟨true, none⟩, ⟨2, true, false⟩) ∧
    svcIncrementAccess ⟨0, true, true⟩ = (⟨false, none⟩, ⟨1, true, true⟩) :=
  ⟨c1_access_gate_boundary.2.1 ⟨1, true, true⟩ (by decide),
   c1_access_gate_boundary.2.2.1 ⟨3, true, true⟩ (by decide),
   c1_access_gate_boundary.2.2.2.1 ⟨2, true, true⟩ (by decide),
   c1_access_gate_boundary.2.2.2.2 ⟨0, true, true⟩ (by decide)⟩

/-! ## C2 — sensitive values in log output -/

/-- C2: the code logs sensitive values.  The edge function dumps every
request header, so the `authorization` header value appears verbatim in
a log line and two runs differing only in that credential produce
different log output; likewise the compress case of the process-pdf
route logs the full `npx compress-pdf` command including the
`--pdfPassword` argument, so two runs differing only in the submitted
password produce different log output. -/
theorem c2_sensitive_values_logged :
    edgeHeaderLogLines [("authorization", "Bearer secretA")] =
      ["  authorization: Bearer secretA"] ∧
    edgeHeaderLogLines [("authorization", "Bearer secretA")] ≠
      edgeHeaderLogLines [("authorization", "Bearer secretB")] ∧
    compressCommandLogLine "in.pdf" "out.pdf" ⟨none, none, some "hunter2", none, none⟩ =
      "Executing compress-pdf command: npx compress-pdf --file \"in.pdf\" --output \"out.pdf\" --resolution \"ebook\" --gsModule \"/usr/bin/gs\" --pdfPassword \"hunter2\"" ∧
    compressCommandLogLine "in.pdf" "out.pdf" ⟨none, none, some "hunter2", none, none⟩ ≠
      compressCommandLogLine "in.pdf" "out.pdf" ⟨none, none, some "hunter3", none, none⟩ := by
  refine ⟨rfl, by decide, rfl, by decide⟩

/-! ## C3 — /file-size rounding -/

/-- C3 (counterexample): for a recorded `file_size` of 1572864 bytes
(1.5 MiB) the route returns 2 whole megabytes, while the value rounded
to 2 decimal places — the number `uploadProcessedFile` computes for
`file_size_mb` — is 1.50. -/
theorem c3_file_size_integer_rounding :
    fileSizeRouteMb (some 1572864) = some 2 ∧
    fileSizeMbTwoDecimals 1572864 = 3 / 2 ∧
    ((2 : ℚ) ≠ 3 / 2) := by
  refine ⟨?_, ?_, by norm_num⟩
  · have h : jsMathRound (((1572864 : ℕ) : ℚ) / (1024 * 1024)) = 2 :=
      jsMathRound_eq_of_bounds _ 2 (by norm_num) (by norm_num)
    simp only [fileSizeRouteMb, Option.map_some', h]
  · have h : jsMathRound (((1572864 : ℕ) : ℚ) * 100 / (1024 * 1024)) = 150 :=
      jsMathRound_eq_of_bounds _ 150 (by norm_num) (by norm_num)
    unfold fileSizeMbTwoDecimals
    rw [h]
    norm_num

/-- C3 (amended): the route answers `null` when no size is recorded and
otherwise the size in megabytes rounded to the nearest whole megabyte
(`Math.round`, i.e. Mathlib's half-up `round`), which is within 1/2 MB
of the exact value — not the 2-decimal rounding the claim states. -/
theorem c3_file_size_route_rounds_to_nearest_mb :
    fileSizeRouteMb none = none ∧
    (∀ b : Nat, fileSizeRouteMb (some b) =
      some (round ((b : ℚ) / (1024 * 1024)))) ∧
    (∀ b : Nat,
      |(b : ℚ) / (1024 * 1024) - (round ((b : ℚ) / (1024 * 1024)) : ℚ)| ≤ 1 / 2) := by
  refine ⟨rfl, ?_, ?_⟩
  · intro b
    simp [fileSizeRouteMb, jsMathRound, round_eq]
  · intro b
    exact abs_sub_round _

/-! ## C5 — compression profiles -/

/-- C5 (counterexample): the claim says every `compressionLevel` other
than low/medium/extreme defaults to the medium profile; the code sends
the unrecognized value "high" to the low profile
(`printer`/100/300/300/300), not to `ebook`/70/120/120/300. -/
theorem c5_unknown_level_gets_low_profile :
    compressProfile (some "high") = ⟨"printer", ⟨100, 300, 300, 300⟩⟩ ∧
    compressProfile (some "high") ≠ ⟨"ebook", ⟨70, 120, 120, 300⟩⟩ := by
  decide

/-- C5 (amended): low, medium and extreme map to exactly the specified
Ghostscript profiles; an absent `compressionLevel` defaults to the
medium profile, but any other present value falls through to the
low (`printer`) profile. -/
theorem c5_compress_profile_map :
    compressProfile none = ⟨"ebook", ⟨70, 120, 120, 300⟩⟩ ∧
    compressProfile (some "low") = ⟨"printer", ⟨100, 300, 300, 300⟩⟩ ∧
    compressProfile (some "medium") = ⟨"ebook", ⟨70, 120, 120, 300⟩⟩ ∧
    compressProfile (some "extreme") = ⟨"screen", ⟨25, 36, 36, 100⟩⟩ ∧
    ∀ s : String, s ≠ "extreme" → s ≠ "medium" →
      compressProfile (some s) = ⟨"printer", ⟨100, 300, 300, 300⟩⟩ := by
  refine ⟨by decide, by decide, by decide, by decide, ?_⟩
  intro s h1 h2
  simp [compressProfile, h1, h2]

/-- C5 witness: the amended theorem applied at the unrecognized level
"screen-ultra". -/
theorem c5_compress_profile_map_witness :
    compressProfile (some "screen-ultra") = ⟨"printer", ⟨100, 300, 300, 300⟩⟩ :=
  c5_compress_profile_map.2.2.2.2 "screen-ultra" (by decide) (by decide)

/-! ## C6 — terminal state updates by the worker -/

/-- C6: every `executePdfProcessing` run ends in a terminal update; a
failure of download, handler or upload yields status failed with
progress 0 and a present error_message, and success yields status
succeeded with progress 100 and file_name and public_url set. -/
theorem c6_worker_terminal_states :
    ∀ (jobId : String) (j : JobRecord) (env : ExecEnv),
      ((executePdfProcessing jobId j env).status = "succeeded" ∨
        (executePdfProcessing jobId j env).status = "failed") ∧
      ((executePdfProcessing jobId j env).status = "failed" →
        (executePdfProcessing jobId j env).progress = 0 ∧
        (executePdfProcessing jobId j env).errorMessage.isSome = true) ∧
      ((executePdfProcessing jobId j env).status = "succeeded" →
        (executePdfProcessing jobId j env).progress = 100 ∧
        (executePdfProcessing jobId j env).fileName.isSome = true ∧
        (executePdfProcessing jobId j env).publicUrl.isSome = true) := by
  intro jobId j env
  obtain ⟨d, h, u⟩ := env
  cases d <;> cases h <;> cases u <;>
    simp [executePdfProcessing, updateProcessingJobStatus]

/-- C6 witness: the terminal-state theorem applied to one succeeding
and one failing run. -/
theorem c6_worker_terminal_states_witness :
    (executePdfProcessing "abcd1234rest" ⟨"pending", 0, none, none, none⟩
        ⟨.ok (), .ok ⟨"merged_documents", ".pdf"⟩, .ok "https://bucket/u"⟩).progress
      = 100 ∧
    (executePdfProcessing "abcd1234rest" ⟨"pending", 0, none, none, none⟩
        ⟨.ok (), .err "Merging requires at least two PDF files.", .ok "u"⟩).progress
      = 0 :=
  ⟨((c6_worker_terminal_states "abcd1234rest" ⟨"pending", 0, none, none, none⟩
      ⟨.ok (), .ok ⟨"merged_documents", ".pdf"⟩, .ok "https://bucket/u"⟩).2.2 rfl).1,
   ((c6_worker_terminal_states "abcd1234rest" ⟨"pending", 0, none, none, none⟩
      ⟨.ok (), .err "Merging requires at least two PDF files.", .ok "u"⟩).2.1 rfl).1⟩

/-! ## C7 — unlockPdf with an empty password -/

/-- C7 (counterexample): with exactly one input file and
`options.password = ""` the worker's unlockPdf case does not invoke the
handler: the empty string is falsy, so the job is rejected with the
missing-password error. -/
theorem c7_empty_password_rejected :
    exceptToOption (unlockPdfCase 1 (some "")) = none ∧
    unlockPdfCase 1 (some "") =
      .error "Password is required to unlock the PDF." :=
  ⟨rfl, rfl⟩

/-- C7 (amended): the worker's unlockPdf case rejects a wrong file
count, rejects a missing or empty password with the missing-password
error, and invokes the unlock handler only for a non-empty password,
passing it through. -/
theorem c7_unlock_password_gate :
    ∀ (n : Nat) (pw : Option String),
      (n ≠ 1 →
        unlockPdfCase n pw = .error "Unlocking a PDF requires exactly one file.") ∧
      (jsTruthy pw = false →
        unlockPdfCase 1 pw = .error "Password is required to unlock the PDF.") ∧
      (∀ s : String, s ≠ "" →
        unlockPdfCase 1 (some s) = .ok ⟨"unlock", s⟩) := by
  intro n pw
  refine ⟨?_, ?_, ?_⟩
  · intro hn
    rw [unlockPdfCase, if_pos hn]
  · intro hpw
    rw [unlockPdfCase, if_neg (by omega), hpw]
    rfl
  · intro s hs
    rw [unlockPdfCase, if_neg (by omega)]
    have : jsTruthy (some s) = true := by
      simp [jsTruthy, hs]
    rw [this]
    rfl

/-- C7 witness: the amended theorem applied at concrete inputs. -/
theorem c7_unlock_password_gate_witness :
    unlockPdfCase 2 (some "pw") =
      .error "Unlocking a PDF requires exactly one file." ∧
    unlockPdfCase 1 none =
      .error "Password is required to unlock the PDF." ∧
    unlockPdfCase 1 (some "pw123") = .ok ⟨"unlock", "pw123"⟩ :=
  ⟨(c7_unlock_password_gate 2 (some "pw")).1 (by decide),
   (c7_unlock_password_gate 1 none).2.1 (by decide),
   (c7_unlock_password_gate 1 (some "pw123")).2.2 "pw123" (by decide)⟩

/-! ## C8 — DELETE /delete-processed-file idempotency -/

/-- C8 (counterexample): in the state the claim describes — artifact
and row already gone (the edge-function threshold deletion and the
sweeper do remove rows; the endpoint itself cannot) — invoking the
delete endpoint reports a 500 failure (`Job not found`), not success,
whatever the id column's type. -/
theorem c8_gone_row_delete_fails :
    deleteRoute ⟨[], []⟩ (some "job1") false true = (500, ⟨[], []⟩) ∧
    deleteRoute ⟨[], []⟩ (some "job1") false false = (500, ⟨[], []⟩) := by
  decide

/-- C8 (amended): the endpoint is not idempotent-success.  When the job
row is gone every invocation answers 500 `Job not found`.  And the
endpoint can never itself remove a row: its database delete is
`.delete().in('id', jobId)` with a string, filtering `id` against the
individual characters of the (multi-character) job id — with a `uuid`
id column even the first invocation on an existing row answers 500
(cast error) with the row intact, and with a `text` id column it
answers 200 while the row silently survives. -/
theorem c8_delete_never_idempotent_success :
    ∀ (st : StoreState) (jid : String) (sf : Bool),
      (st.jobs.lookup jid = none →
        deleteRoute st (some jid) sf true = (500, st) ∧
        deleteRoute st (some jid) sf false = (500, st)) ∧
      (∀ job : JobRow, st.jobs.lookup jid = some job → 2 ≤ jid.length →
        ((deleteRoute st (some jid) sf true).1 = 500 ∧
          (deleteRoute st (some jid) sf true).2.jobs = st.jobs) ∧
        ((deleteRoute st (some jid) sf false).1 = 200 ∧
          (deleteRoute st (some jid) sf false).2.jobs.lookup jid = some job)) := by
  intro st jid sf
  constructor
  · intro h
    constructor <;> simp [deleteRoute, deleteProcessingJobAndFile, h]
  · intro job h hlen
    have hnm : jid ∉ inFilterValues jid := fun hm => by
      have h1 := mem_inFilterValues_length jid jid hm
      omega
    have hp : ∀ v : JobRow,
        (fun kv : String × JobRow => decide (kv.1 ∉ inFilterValues jid)) (jid, v)
          = true :=
      fun _ => decide_eq_true hnm
    refine ⟨⟨?_, ?_⟩, ?_, ?_⟩
    · simp [deleteRoute, deleteProcessingJobAndFile, h]
    · simp [deleteRoute, deleteProcessingJobAndFile, h]
    · simp [deleteRoute, deleteProcessingJobAndFile, h]
    · have hres := lookup_filter_of_key_kept jid
        (fun kv : String × JobRow => decide (kv.1 ∉ inFilterValues jid)) hp st.jobs
      simp [deleteRoute, deleteProcessingJobAndFile, h]
      simpa using hres.trans h

/-- C8 witness: the amended theorem applied at concrete states — an
existing row under both column models and a gone row. -/
theorem c8_delete_never_idempotent_success_witness :
    (deleteRoute ⟨[("job1", ⟨some "u", some "f.pdf"⟩)], []⟩
        (some "job1") false true).1 = 500 ∧
    (deleteRoute ⟨[("job1", ⟨some "u", some "f.pdf"⟩)], []⟩
        (some "job1") false false).1 = 200 ∧
    (deleteRoute ⟨[("job1", ⟨some "u", some "f.pdf"⟩)], []⟩
        (some "job1") false false).2.jobs.lookup "job1"
      = some ⟨some "u", some "f.pdf"⟩ ∧
    deleteRoute ⟨[], []⟩ (some "gone") true true = (500, ⟨[], []⟩) :=
  ⟨((c8_delete_never_idempotent_success ⟨[("job1", ⟨some "u", some "f.pdf"⟩)], []⟩
      "job1" false).2 ⟨some "u", some "f.pdf"⟩ (by decide) (by decide)).1.1,
   ((c8_delete_never_idempotent_success ⟨[("job1", ⟨some "u", some "f.pdf"⟩)], []⟩
      "job1" false).2 ⟨some "u", some "f.pdf"⟩ (by decide) (by decide)).2.1,
   ((c8_delete_never_idempotent_success ⟨[("job1", ⟨some "u", some "f.pdf"⟩)], []⟩
      "job1" false).2 ⟨some "u", some "f.pdf"⟩ (by decide) (by decide)).2.2,
   ((c8_delete_never_idempotent_success ⟨[], []⟩ "gone" true).1 (by decide)).1⟩

/-! ## C9 — split range parsing -/

/-- C9: split ranges are parsed 1-based inclusive — token `A-B` with
numeric halves `1 ≤ a ≤ b` yields the 0-based inclusive range
`{a-1, b-1}`; a bare token `N` parses exactly like `N-N` (up to the
error message); a non-numeric token, a start below 1 or an end below
the start throws; and one bad token anywhere makes the whole split case
abort before any output artifact is chosen. -/
theorem c9_split_range_parsing :
    (∀ l : List Char, '-' ∉ l →
      exceptToOption (parseRangeToken (l ++ '-' :: l)) =
        exceptToOption (parseRangeToken l)) ∧
    (∀ (la lb : List Char) (a b : Nat), '-' ∉ la → '-' ∉ lb →
      jsNumber la = some a → jsNumber lb = some b → 1 ≤ a → a ≤ b →
      parseRangeToken (la ++ '-' :: lb) = .ok ⟨a - 1, b - 1⟩) ∧
    (∀ (la lb : List Char) (a b : Nat), '-' ∉ la → '-' ∉ lb →
      jsNumber la = some a → jsNumber lb = some b → (a < 1 ∨ b < a) →
      ∃ m, parseRangeToken (la ++ '-' :: lb) = .error m) ∧
    (∀ la lb : List Char, '-' ∉ la → '-' ∉ lb →
      (jsNumber la = none ∨ jsNumber lb = none) →
      ∃ m, parseRangeToken (la ++ '-' :: lb) = .error m) ∧
    (∀ l : List Char, '-' ∉ l → jsNumber l = none →
      ∃ m, parseRangeToken l = .error m) ∧
    (∀ (l : List Char) (n : Nat), '-' ∉ l → jsNumber l = some n → n < 1 →
      ∃ m, parseRangeToken l = .error m) ∧
    (∀ s t : List Char, t ∈ pageRangeTokens s →
      (∃ m, parseRangeToken t = .error m) →
      ∃ m, executeSplitCase s = .error m) := by
  refine ⟨?_, ?_, ?_, ?_, ?_, ?_, ?_⟩
  · intro l hl
    have hmem := dash_mem_append l l
    have hsplit := splitOnChar_two l l hl hl
    cases hj : jsNumber l with
    | none =>
      simp only [parseRangeToken, if_pos hmem, if_neg hl, hsplit,
        List.map_cons, List.map_nil, hj, exceptToOption]
    | some n =>
      by_cases hn : n < 1
      · have hcond : n < 1 ∨ n < n := Or.inl hn
        simp only [parseRangeToken, if_pos hmem, if_neg hl, hsplit,
          List.map_cons, List.map_nil, hj, if_pos hcond, if_pos hn,
          exceptToOption]
      · have hcond : ¬(n < 1 ∨ n < n) := by omega
        simp only [parseRangeToken, if_pos hmem, if_neg hl, hsplit,
          List.map_cons, List.map_nil, hj, if_neg hcond, if_neg hn,
          exceptToOption]
  · intro la lb a b ha hb hja hjb h1 h2
    have hmem := dash_mem_append la lb
    have hsplit := splitOnChar_two la lb ha hb
    have hcond : ¬(a < 1 ∨ b < a) := by omega
    simp only [parseRangeToken, if_pos hmem, hsplit,
      List.map_cons, List.map_nil, hja, hjb, if_neg hcond]
  · intro la lb a b ha hb hja hjb hcond
    have hmem := dash_mem_append la lb
    have hsplit := splitOnChar_two la lb ha hb
    simp only [parseRangeToken, if_pos hmem, hsplit,
      List.map_cons, List.map_nil, hja, hjb, if_pos hcond]
    exact ⟨_, rfl⟩
  · intro la lb ha hb hor
    have hmem := dash_mem_append la lb
    have hsplit := splitOnChar_two la lb ha hb
    rcases hor with hna | hnb
    · cases hjb : jsNumber lb with
      | none =>
        simp only [parseRangeToken, if_pos hmem, hsplit,
          List.map_cons, List.map_nil, hna, hjb]
        exact ⟨_, rfl⟩
      | some b =>
        simp only [parseRangeToken, if_pos hmem, hsplit,
          List.map_cons, List.map_nil, hna, hjb]
        exact ⟨_, rfl⟩
    · cases hja : jsNumber la with
      | none =>
        simp only [parseRangeToken, if_pos hmem, hsplit,
          List.map_cons, List.map_nil, hja, hnb]
        exact ⟨_, rfl⟩
      | some a =>
        simp only [parseRangeToken, if_pos hmem, hsplit,
          List.map_cons, List.map_nil, hja, hnb]
        exact ⟨_, rfl⟩
  · intro l hl hj
    simp only [parseRangeToken, if_neg hl, hj]
    exact ⟨_, rfl⟩
  · intro l n hl hj hn
    simp only [parseRangeToken, if_neg hl, hj, if_pos hn]
    exact ⟨_, rfl⟩
  · intro s t ht hex
    by_cases h1 : trimChars s = []
    · refine ⟨"Page range (e.g., \"1-7\" or \"1-3,5,8-10\") is required for splitting.", ?_⟩
      simp only [executeSplitCase, parsePageRanges, if_pos h1]
      rfl
    · have h2 : ¬pageRangeTokens s = [] := by
        intro hnil
        rw [hnil] at ht
        exact absurd ht (List.not_mem_nil t)
      obtain ⟨m, hm⟩ := parseTokens_error_of_mem (pageRangeTokens s) t ht hex
      refine ⟨m, ?_⟩
      simp only [executeSplitCase, parsePageRanges, if_neg h1, if_neg h2]
      rw [hm]
      rfl

/-- C9 witness: each part of the parsing theorem applied at a concrete
token — `7` vs `7-7`, the valid range `2-4`, the reversed range `5-3`,
the non-numeric `2-x` and `abc`, the out-of-bounds `0`, and the whole
split case on `5-3`. -/
theorem c9_split_range_parsing_witness :
    exceptToOption (parseRangeToken ("7".toList ++ '-' :: "7".toList)) =
      exceptToOption (parseRangeToken ("7".toList)) ∧
    parseRangeToken ("2".toList ++ '-' :: "4".toList) = .ok ⟨2 - 1, 4 - 1⟩ ∧
    (∃ m, parseRangeToken ("5".toList ++ '-' :: "3".toList) = .error m) ∧
    (∃ m, parseRangeToken ("2".toList ++ '-' :: "x".toList) = .error m) ∧
    (∃ m, parseRangeToken ("abc".toList) = .error m) ∧
    (∃ m, parseRangeToken ("0".toList) = .error m) ∧
    (∃ m, executeSplitCase ("5-3".toList) = .error m) :=
  ⟨c9_split_range_parsing.1 "7".toList (by decide),
   c9_split_range_parsing.2.1 "2".toList "4".toList 2 4
     (by decide) (by decide) (by decide) (by decide) (by decide) (by decide),
   c9_split_range_parsing.2.2.1 "5".toList "3".toList 5 3
     (by decide) (by decide) (by decide) (by decide) (Or.inr (by decide)),
   c9_split_range_parsing.2.2.2.1 "2".toList "x".toList
     (by decide) (by decide) (Or.inr (by decide)),
   c9_split_range_parsing.2.2.2.2.1 "abc".toList (by decide) (by decide),
   c9_split_range_parsing.2.2.2.2.2.1 "0".toList 0
     (by decide) (by decide) (by decide),
   c9_split_range_parsing.2.2.2.2.2.2 ("5-3".toList) ("5-3".toList)
     (by decide)
     ⟨"Invalid pages in range \"5-3\". Pages must be positive and end page >= start page.",
      rfl⟩⟩

/-! ## C4 — split output packaging and ZIP entry names -/

/-- C4 (counterexample): for the range string `1-3,5` the claim
predicts a ZIP entry `pages_1-3.pdf` (or `pages_0-2.pdf` with 0-based
bounds) for the multi-page range; the code names every entry with the
`split_page_{start+1}` scheme, so the actual entries are
`split_page_1.pdf` and `split_page_5.pdf`. -/
theorem c4_multi_page_entry_name :
    executeSplitCase ("1-3,5".toList) =
      .ok (.zip ["split_page_1.pdf", "split_page_5.pdf"]) ∧
    "pages_1-3.pdf" ∉ ["split_page_1.pdf", "split_page_5.pdf"] ∧
    "pages_0-2.pdf" ∉ ["split_page_1.pdf", "split_page_5.pdf"] :=
  ⟨rfl, by decide, by decide⟩

/-- C4 (amended): exactly one parsed range yields the bare PDF and more
than one yields a ZIP, but every ZIP entry — single-page or multi-page
range alike — is named `split_page_{start+1}.pdf` after the first page
of its range (so for a 1-based range starting at page `a` the entry is
`split_page_a.pdf`, and the end page never appears in the name). -/
theorem c4_split_packaging :
    (∀ (chars : List Char) (ranges : List PageRange),
      parsePageRanges chars = .ok ranges →
      (ranges.length = 1 → executeSplitCase chars = .ok .singlePdf) ∧
      (1 < ranges.length →
        executeSplitCase chars = .ok (.zip (ranges.map splitEntryName)))) ∧
    (∀ a b : Nat, 1 ≤ a →
      splitEntryName ⟨a - 1, b⟩ = "split_page_" ++ toString a ++ ".pdf") := by
  constructor
  · intro chars ranges h
    have hexec : executeSplitCase chars = splitPackage ranges := by
      simp only [executeSplitCase, h]
      rfl
    constructor
    · intro h1
      rw [hexec]
      simp [splitPackage, h1]
    · intro h2
      have h0 : ¬ranges.length = 0 := by omega
      rw [hexec]
      simp [splitPackage, h0, h2]
  · intro a b ha
    rw [splitEntryName, Nat.sub_add_cancel ha]

/-- C4 witness: the packaging theorem applied to the parsed ranges of
`1-3,5` (a ZIP) and of `7` (a bare PDF), and the naming identity at the
1-based range `5-5`. -/
theorem c4_split_packaging_witness :
    executeSplitCase ("1-3,5".toList) =
      .ok (.zip (([⟨0, 2⟩, ⟨4, 4⟩] : List PageRange).map splitEntryName)) ∧
    executeSplitCase ("7".toList) = .ok .singlePdf ∧
    splitEntryName ⟨5 - 1, 4⟩ = "split_page_" ++ toString 5 ++ ".pdf" :=
  ⟨(c4_split_packaging.1 ("1-3,5".toList) [⟨0, 2⟩, ⟨4, 4⟩] rfl).2 (by decide),
   (c4_split_packaging.1 ("7".toList) [⟨6, 6⟩] rfl).1 (by decide),
   c4_split_packaging.2 5 4 (by decide)⟩

/-! ## C10 — record deletion survives storage failure -/

/-- C10: the claim states the code's documented intent — the source
comments say `Delete DB record` and `Continue deleting DB record even
if file deletion fails`, and the route reports `File and job record
deleted successfully` — but the `.delete().in('id', jobId)` string
filter never matches the multi-character job id.  Evaluated at the
failing input (existing job `job1`, storage delete failing): the
database record survives under both id-column models, the `uuid` model
even reporting failure, and the artifact is intact too — so neither the
record deletion nor the claimed record-less orphan ever arises. -/
theorem c10_db_record_never_deleted :
    (deleteProcessingJobAndFile
        ⟨[("job1", ⟨some "u", some "f.pdf"⟩)], ["public/job1/f.pdf"]⟩
        "job1" true true).2.jobs.lookup "job1" = some ⟨some "u", some "f.pdf"⟩ ∧
    (deleteProcessingJobAndFile
        ⟨[("job1", ⟨some "u", some "f.pdf"⟩)], ["public/job1/f.pdf"]⟩
        "job1" true false).2.jobs.lookup "job1" = some ⟨some "u", some "f.pdf"⟩ ∧
    (deleteProcessingJobAndFile
        ⟨[("job1", ⟨some "u", some "f.pdf"⟩)], ["public/job1/f.pdf"]⟩
        "job1" true true).1.success = false ∧
    (deleteProcessingJobAndFile
        ⟨[("job1", ⟨some "u", some "f.pdf"⟩)], ["public/job1/f.pdf"]⟩
        "job1" true false).1.success = true ∧
    (deleteProcessingJobAndFile
        ⟨[("job1", ⟨some "u", some "f.pdf"⟩)], ["public/job1/f.pdf"]⟩
        "job1" true false).2.storage = ["public/job1/f.pdf"] := by
  decide

end DocSmart
